import Mathlib

/-! Verification of the UART test-bench driver (`uart_tb.cpp`).

A shallow embedding of `tick` and of the polling loop of `main`.

* The generated hardware model (`Vuart_tx_tb`) and the trace sink (`VerilatedVcdC`) are
  external collaborators.  The model is a parameter (`Design`): a state type with an
  evaluation function that reads the clock input, and three output signals.
* Every call the harness makes on the model or on the sink is appended to a chronological
  log (`Action`), so that the order of the calls can be stated.
* `int` is a 32-bit two's-complement integer: a value of type `Int` kept in
  `[-2^31, 2^31)` by `wrapInt` after every arithmetic operation.  Signed overflow is undefined
  in C++; the embedding takes the wrap-around that the usual targets produce.
* The `while` loop is run with a fuel bound: `mainLoop fuel` is `none` when the loop is still
  running after `fuel` iterations.
-/

namespace UartTb

/-! ## Machine integers -/

/-- Value of an arithmetic result stored in a 32-bit `int`. -/
def wrapInt (x : Int) : Int :=
  (x + 2147483648) % 4294967296 - 2147483648

/-- The conversion `static_cast<uint64_t>` of an `int`. -/
def toUInt64 (x : Int) : Nat :=
  (x % 18446744073709551616).toNat

/-! ## The external collaborators -/

/-- Calls made by the harness on the model and on the trace sink. -/
inductive Action where
  | setClk (v : Nat)
  | eval
  | dump (t : Nat)
  | flush
  deriving DecidableEq, Repr

/-- Modelled from the spec: the generated class `Vuart_tx_tb` (header `Vuart_tx_tb.h`) is not
part of the sources.  It is "a black box exposing `clk` (settable), `eval()` and output signals
`received_valid`, `received_data`, `frame_error`".  `eval` reads the clock input and updates
the internal state, from which the outputs are read. -/
structure Design (σ : Type) where
  eval : Nat → σ → σ
  received_valid : σ → Nat
  received_data : σ → Nat
  frame_error : σ → Nat

/-- The object behind the pointer `tb`: the clock input and the internal state. -/
structure Vuart_tx_tb (σ : Type) where
  clk : Nat
  st : σ
  deriving DecidableEq

/-- The simulation session: the model object and the log of the calls made so far. -/
structure Sim (σ : Type) where
  tb : Vuart_tx_tb σ
  log : List Action
  deriving DecidableEq

/-- The assignment `tb->clk = v`. -/
def Sim.setClk {σ : Type} (s : Sim σ) (v : Nat) : Sim σ :=
  { tb := { s.tb with clk := v }, log := s.log ++ [Action.setClk v] }

/-- The call `tb->eval()`. -/
def Sim.eval {σ : Type} (d : Design σ) (s : Sim σ) : Sim σ :=
  { tb := { s.tb with st := d.eval s.tb.clk s.tb.st }, log := s.log ++ [Action.eval] }

/-- The call `tfp->dump(t)`. -/
def Sim.dump {σ : Type} (s : Sim σ) (t : Nat) : Sim σ :=
  { s with log := s.log ++ [Action.dump t] }

/-- The call `tfp->flush()`. -/
def Sim.flush {σ : Type} (s : Sim σ) : Sim σ :=
  { s with log := s.log ++ [Action.flush] }

/-! ## `tick` -/

/-- The function `tick(tb, cycles, tfp)`; `tfp` is `true` when the sink pointer is not null. -/
def tick {σ : Type} (d : Design σ) (tb : Sim σ) (cycles : Int) (tfp : Bool) : Sim σ :=
  let tb := tb.setClk 0
  let tb := tb.eval d
  let tb := if tfp then tb.dump (toUInt64 (wrapInt (cycles * 10))) else tb
  let tb := tb.setClk 1
  let tb := tb.eval d
  if tfp then (tb.dump (toUInt64 (wrapInt (wrapInt (cycles * 10) + 5)))).flush else tb

/-! ## The loop of `main` -/

/-- The variables of the loop: the counter `cycles` and the session. -/
structure LoopState (σ : Type) where
  cycles : Int
  sim : Sim σ
  deriving DecidableEq

/-- The loop condition `(cycles < 1) || !(tb->received_valid)`. -/
def loopCond {σ : Type} (d : Design σ) (s : LoopState σ) : Bool :=
  decide (s.cycles < 1) || (d.received_valid s.sim.tb.st == 0)

/-- The loop body `tick(tb, cycles, tfp); cycles++;`. -/
def loopBody {σ : Type} (d : Design σ) (tfp : Bool) (s : LoopState σ) : LoopState σ :=
  { cycles := wrapInt (s.cycles + 1), sim := tick d s.sim s.cycles tfp }

/-- The `while` loop, run for at most `fuel` iterations; `none` when it has not exited. -/
def mainLoop {σ : Type} (d : Design σ) (tfp : Bool) : Nat → LoopState σ → Option (LoopState σ)
  | 0, s => if loopCond d s then none else some s
  | fuel + 1, s => if loopCond d s then mainLoop d tfp fuel (loopBody d tfp s) else some s

/-- The three values printed by `printf` after the loop. -/
structure Report where
  cycles : Int
  received : Nat
  frame_error : Nat
  deriving DecidableEq, Repr

/-- The arguments of the final `printf`, read from the loop variables. -/
def report {σ : Type} (d : Design σ) (s : LoopState σ) : Report :=
  { cycles := s.cycles
    received := d.received_data s.sim.tb.st
    frame_error := d.frame_error s.sim.tb.st }

/-- The loop variables on entry: `cycles = 0`, a freshly built model, and an empty log (the
set-up calls `commandArgs`, `traceEverOn`, `trace` and `open` precede the loop and are not
among the logged calls). -/
def mainInit {σ : Type} (init : Vuart_tx_tb σ) : LoopState σ :=
  { cycles := 0, sim := { tb := init, log := [] } }

/-- The function `main`: the sink is always attached (`tfp = new VerilatedVcdC`). -/
def main {σ : Type} (d : Design σ) (init : Vuart_tx_tb σ) (fuel : Nat) : Option Report :=
  (mainLoop d true fuel (mainInit init)).map (report d)

/-! ## Observations on runs -/

/-- Loop variables at the loop head reached after `n` iterations of the body. -/
def loopHead {σ : Type} (d : Design σ) (tfp : Bool) (init : Vuart_tx_tb σ) (n : Nat) :
    LoopState σ :=
  (loopBody d tfp)^[n] (mainInit init)

/-- Truth value of `received_valid` after `n` ticks. -/
def validAfter {σ : Type} (d : Design σ) (init : Vuart_tx_tb σ) (n : Nat) : Bool :=
  d.received_valid (loopHead d true init n).sim.tb.st != 0

/-- Timestamps handed to `dump`, in call order. -/
def dumps : List Action → List Nat
  | [] => []
  | Action.dump t :: l => t :: dumps l
  | _ :: l => dumps l

/-- Number of `eval()` calls in a log. -/
def evalCount (l : List Action) : Nat :=
  l.count Action.eval

/-- Number of `flush()` calls in a log. -/
def flushCount (l : List Action) : Nat :=
  l.count Action.flush

/-- A design that counts its `eval()` calls and asserts `received_valid` on the counts
selected by `p`; `received_data` is the low byte of the count. -/
def counterDesign (p : Nat → Bool) : Design Nat where
  eval := fun _ s => s + 1
  received_valid := fun s => if p s then 1 else 0
  received_data := fun s => s % 256
  frame_error := fun _ => 0

/-- A freshly built counting model. -/
def counterInit : Vuart_tx_tb Nat :=
  { clk := 0, st := 0 }

/-- Test input: `received_valid` is never asserted. -/
def stuckDesign : Design Nat :=
  counterDesign (fun _ => false)

theorem wrapInt_of_range (x : Int) (h0 : -2147483648 ≤ x) (h1 : x < 2147483648) :
    wrapInt x = x := by
  unfold wrapInt
  omega

theorem wrapInt_succ (x : Int) : wrapInt (wrapInt x + 1) = wrapInt (x + 1) := by
  unfold wrapInt
  omega

theorem wrapInt_natCast (n : Nat) (h : n < 2147483648) : wrapInt (n : Int) = n := by
  apply wrapInt_of_range <;> omega

theorem toUInt64_natCast (n : Nat) (h : n < 18446744073709551616) :
    toUInt64 (n : Int) = n := by
  unfold toUInt64
  omega

/-- Low-phase timestamp of an in-range cycle index. -/
theorem tsLow_of_range (n : Nat) (h : n ≤ 214748364) :
    toUInt64 (wrapInt ((n : Int) * 10)) = 10 * n := by
  have e : ((n : Int) * 10) = ((10 * n : Nat) : Int) := by push_cast; ring
  rw [e, wrapInt_natCast _ (by omega), toUInt64_natCast _ (by omega)]

/-- High-phase timestamp of an in-range cycle index. -/
theorem tsHigh_of_range (n : Nat) (h : n ≤ 214748364) :
    toUInt64 (wrapInt (wrapInt ((n : Int) * 10) + 5)) = 10 * n + 5 := by
  have e : ((n : Int) * 10) = ((10 * n : Nat) : Int) := by push_cast; ring
  have e2 : (((10 * n : Nat) : Int) + 5) = ((10 * n + 5 : Nat) : Int) := by push_cast; ring
  rw [e, wrapInt_natCast _ (by omega), e2, wrapInt_natCast _ (by omega),
    toUInt64_natCast _ (by omega)]

/-! ## One call of `tick` -/

theorem tick_tb {σ : Type} (d : Design σ) (w : Sim σ) (c : Int) (tfp : Bool) :
    (tick d w c tfp).tb = { clk := 1, st := d.eval 1 (d.eval 0 w.tb.st) } := by
  cases tfp <;> rfl

theorem tick_log_attached {σ : Type} (d : Design σ) (w : Sim σ) (c : Int) :
    (tick d w c true).log = w.log ++
      [Action.setClk 0, Action.eval, Action.dump (toUInt64 (wrapInt (c * 10))),
       Action.setClk 1, Action.eval,
       Action.dump (toUInt64 (wrapInt (wrapInt (c * 10) + 5))), Action.flush] := by
  simp [tick, Sim.setClk, Sim.eval, Sim.dump, Sim.flush]

theorem tick_log_detached {σ : Type} (d : Design σ) (w : Sim σ) (c : Int) :
    (tick d w c false).log = w.log ++
      [Action.setClk 0, Action.eval, Action.setClk 1, Action.eval] := by
  simp [tick, Sim.setClk, Sim.eval]

theorem dumps_append (l₁ l₂ : List Action) : dumps (l₁ ++ l₂) = dumps l₁ ++ dumps l₂ := by
  induction l₁ with
  | nil => rfl
  | cons a l ih => cases a <;> simp [dumps, ih]

/-! ## The loop -/

theorem loopHead_zero {σ : Type} (d : Design σ) (tfp : Bool) (init : Vuart_tx_tb σ) :
    loopHead d tfp init 0 = mainInit init := rfl

theorem loopHead_succ {σ : Type} (d : Design σ) (tfp : Bool) (init : Vuart_tx_tb σ) (n : Nat) :
    loopHead d tfp init (n + 1) = loopBody d tfp (loopHead d tfp init n) := by
  unfold loopHead
  exact Function.iterate_succ_apply' _ _ _

theorem loopHead_cycles {σ : Type} (d : Design σ) (tfp : Bool) (init : Vuart_tx_tb σ) (n : Nat) :
    (loopHead d tfp init n).cycles = wrapInt n := by
  induction n with
  | zero => rfl
  | succ n ih =>
    rw [loopHead_succ]
    show wrapInt ((loopHead d tfp init n).cycles + 1) = wrapInt ((n + 1 : Nat) : Int)
    rw [ih, wrapInt_succ]
    push_cast
    rfl

theorem loopHead_cycles_of_lt {σ : Type} (d : Design σ) (tfp : Bool) (init : Vuart_tx_tb σ)
    (n : Nat) (h : n < 2147483648) : (loopHead d tfp init n).cycles = n := by
  rw [loopHead_cycles, wrapInt_natCast n h]

/-- The model state at a loop head does not depend on the sink being attached. -/
theorem loopHead_tb {σ : Type} (d : Design σ) (tfp : Bool) (init : Vuart_tx_tb σ) (n : Nat) :
    (loopHead d tfp init n).sim.tb = (loopHead d true init n).sim.tb := by
  induction n with
  | zero => rfl
  | succ n ih =>
    rw [loopHead_succ, loopHead_succ]
    show (tick d _ _ tfp).tb = (tick d _ _ true).tb
    rw [tick_tb, tick_tb, ih]

theorem loopCond_loopHead {σ : Type} (d : Design σ) (tfp : Bool) (init : Vuart_tx_tb σ)
    (n : Nat) :
    loopCond d (loopHead d tfp init n) = (decide (wrapInt n < 1) || !validAfter d init n) := by
  unfold loopCond validAfter
  rw [loopHead_cycles, loopHead_tb d tfp init n]
  cases h : d.received_valid (loopHead d true init n).sim.tb.st == 0 <;> simp_all

theorem mainLoop_none_of_running {σ : Type} (d : Design σ) (tfp : Bool) :
    ∀ (fuel : Nat) (s : LoopState σ),
      (∀ m, m ≤ fuel → loopCond d ((loopBody d tfp)^[m] s) = true) →
      mainLoop d tfp fuel s = none := by
  intro fuel
  induction fuel with
  | zero =>
    intro s hrun
    have h0 : loopCond d s = true := hrun 0 (by omega)
    simp [mainLoop, h0]
  | succ fuel ih =>
    intro s hrun
    have h0 : loopCond d s = true := hrun 0 (by omega)
    simp only [mainLoop, h0, if_true]
    apply ih
    intro m hm
    have := hrun (m + 1) (by omega)
    rwa [Function.iterate_succ_apply] at this

/-- While the condition holds at every loop head up to `fuel`, the loop has not returned. -/
theorem mainLoop_running {σ : Type} (d : Design σ) (tfp : Bool) (init : Vuart_tx_tb σ)
    (fuel : Nat)
    (hrun : ∀ m, m ≤ fuel → (decide (wrapInt m < 1) || !validAfter d init m) = true) :
    mainLoop d tfp fuel (mainInit init) = none := by
  apply mainLoop_none_of_running
  intro m hm
  rw [show (loopBody d tfp)^[m] (mainInit init) = loopHead d tfp init m from rfl,
    loopCond_loopHead]
  exact hrun m hm

/-- The report of the loop depends on the counter and on the model only, not on the log. -/
theorem mainLoop_report_congr {σ : Type} (d : Design σ) (t₁ t₂ : Bool) :
    ∀ (fuel : Nat) (s₁ s₂ : LoopState σ), s₁.cycles = s₂.cycles → s₁.sim.tb = s₂.sim.tb →
      (mainLoop d t₁ fuel s₁).map (fun r => (r.cycles, r.sim.tb)) =
        (mainLoop d t₂ fuel s₂).map (fun r => (r.cycles, r.sim.tb)) := by
  intro fuel
  induction fuel with
  | zero =>
    intro s₁ s₂ hc ht
    have hcond : loopCond d s₁ = loopCond d s₂ := by unfold loopCond; rw [hc, ht]
    cases h : loopCond d s₂ <;> simp [mainLoop, hcond, h, hc, ht]
  | succ fuel ih =>
    intro s₁ s₂ hc ht
    have hcond : loopCond d s₁ = loopCond d s₂ := by unfold loopCond; rw [hc, ht]
    cases h : loopCond d s₂
    · simp [mainLoop, hcond, h, hc, ht]
    · simp only [mainLoop, hcond, h, if_true]
      apply ih
      · show wrapInt (s₁.cycles + 1) = wrapInt (s₂.cycles + 1)
        rw [hc]
      · show (tick d _ _ t₁).tb = (tick d _ _ t₂).tb
        rw [tick_tb, tick_tb, ht]

/-! ## The counting designs -/

theorem counter_st (p : Nat → Bool) (tfp : Bool) (n : Nat) :
    (loopHead (counterDesign p) tfp counterInit n).sim.tb.st = 2 * n := by
  induction n with
  | zero => rfl
  | succ n ih =>
    rw [loopHead_succ]
    show (tick (counterDesign p) _ _ tfp).tb.st = _
    rw [tick_tb]
    show (loopHead (counterDesign p) tfp counterInit n).sim.tb.st + 1 + 1 = _
    rw [ih]
    omega

theorem counter_validAfter (p : Nat → Bool) (n : Nat) :
    validAfter (counterDesign p) counterInit n = p (2 * n) := by
  unfold validAfter
  rw [counter_st]
  show ((if p (2 * n) then 1 else 0) != 0) = p (2 * n)
  cases p (2 * n) <;> rfl

/-! ## The claims -/

/-- Inside the range where `cycles * 10 + 5` fits in an `int`, a tick with the sink attached
makes exactly the calls set clk 0, eval, dump(10 i), set clk 1, eval, dump(10 i + 5), flush;
for every index it evaluates twice, flushes once and leaves the clock high. -/
theorem tick_actions_in_range {σ : Type} (d : Design σ) (w : Sim σ) (i : Nat)
    (h : i ≤ 214748364) :
    (tick d w i true).log = w.log ++
      [Action.setClk 0, Action.eval, Action.dump (10 * i), Action.setClk 1, Action.eval,
       Action.dump (10 * i + 5), Action.flush] := by
  rw [tick_log_attached, tsLow_of_range i h, tsHigh_of_range i h]

theorem tick_effects {σ : Type} (d : Design σ) (w : Sim σ) (c : Int) :
    evalCount (tick d w c true).log = evalCount w.log + 2 ∧
    flushCount (tick d w c true).log = flushCount w.log + 1 ∧
    (dumps (tick d w c true).log).length = (dumps w.log).length + 2 ∧
    (tick d w c true).tb.clk = 1 ∧
    (tick d w c true).tb.st = d.eval 1 (d.eval 0 w.tb.st) := by
  rw [tick_log_attached, tick_tb]
  unfold evalCount flushCount
  rw [List.count_append, List.count_append, dumps_append]
  simp [dumps, List.count_cons]

/-- C4, evaluated at the failing input `cycles = 214748365`: `cycles * 10` overflows the
`int` before the conversion, and the sink receives `18446744071562067970` and
`18446744071562067975` instead of `2147483650` and `2147483655`.  The counter does take this
value: with a model that never asserts `received_valid` the loop is still running at that
iteration. -/
theorem tick_timestamp_overflow {σ : Type} (d : Design σ) (w : Sim σ) :
    dumps (tick d w 214748365 true).log =
      dumps w.log ++ [18446744071562067970, 18446744071562067975] ∧
    (18446744071562067970 : Nat) ≠ 10 * 214748365 ∧
    (18446744071562067975 : Nat) ≠ 10 * 214748365 + 5 ∧
    (loopHead stuckDesign true counterInit 214748365).cycles = 214748365 ∧
    mainLoop stuckDesign true 214748365 (mainInit counterInit) = none := by
  refine ⟨?_, by decide, by decide, ?_, ?_⟩
  · rw [tick_log_attached, dumps_append]
    have e1 : toUInt64 (wrapInt (214748365 * 10)) = 18446744071562067970 := by decide
    have e2 : toUInt64 (wrapInt (wrapInt (214748365 * 10) + 5)) = 18446744071562067975 := by
      decide
    rw [e1, e2]
    rfl
  · exact loopHead_cycles_of_lt stuckDesign true counterInit 214748365 (by decide)
  · apply mainLoop_running
    intro m _
    unfold stuckDesign
    rw [counter_validAfter]
    simp

/-- C6, evaluated at the failing input `cycles = 214748365`: the calls are set clk 0, eval,
dump, set clk 1, eval, dump, flush, in this order, but the two timestamps are
`18446744071562067970` and `18446744071562067975`, not `10 i = 2147483650` and
`10 i + 5 = 2147483655`. -/
theorem tick_actions_overflow {σ : Type} (d : Design σ) (w : Sim σ) :
    (tick d w 214748365 true).log = w.log ++
      [Action.setClk 0, Action.eval, Action.dump 18446744071562067970, Action.setClk 1,
       Action.eval, Action.dump 18446744071562067975, Action.flush] ∧
    Action.dump 18446744071562067970 ≠ Action.dump (10 * 214748365) ∧
    Action.dump 18446744071562067975 ≠ Action.dump (10 * 214748365 + 5) := by
  refine ⟨?_, by decide, by decide⟩
  rw [tick_log_attached]
  have e1 : toUInt64 (wrapInt (214748365 * 10)) = 18446744071562067970 := by decide
  have e2 : toUInt64 (wrapInt (wrapInt (214748365 * 10) + 5)) = 18446744071562067975 := by
    decide
  rw [e1, e2]

/-- C10: a tick without a sink makes exactly the calls set clk 0, eval, set clk 1, eval (no
dump, no flush); it leaves the model in the same state as a tick with the sink attached,
whatever the index; and the loop run without the sink returns after the same number of
iterations with the same counter, the same model state and the same report as the loop run
with it. -/
theorem tick_without_sink {σ : Type} (d : Design σ) (w : Sim σ) (c : Int) :
    (tick d w c false).log =
      w.log ++ [Action.setClk 0, Action.eval, Action.setClk 1, Action.eval] ∧
    dumps (tick d w c false).log = dumps w.log ∧
    flushCount (tick d w c false).log = flushCount w.log ∧
    (tick d w c false).tb = (tick d w c true).tb ∧
    (∀ (init : Vuart_tx_tb σ) (fuel : Nat),
      (mainLoop d false fuel (mainInit init)).map (fun r => (r.cycles, r.sim.tb)) =
        (mainLoop d true fuel (mainInit init)).map (fun r => (r.cycles, r.sim.tb))) ∧
    (∀ (init : Vuart_tx_tb σ) (fuel : Nat),
      (mainLoop d false fuel (mainInit init)).map (report d) = main d init fuel) := by
  have hcongr := fun (init : Vuart_tx_tb σ) (fuel : Nat) =>
    mainLoop_report_congr d false true fuel (mainInit init) (mainInit init) rfl rfl
  refine ⟨tick_log_detached d w c, ?_, ?_, ?_, hcongr, ?_⟩
  · rw [tick_log_detached, dumps_append]
    simp [dumps]
  · unfold flushCount
    rw [tick_log_detached, List.count_append]
    simp [List.count_cons]
  · rw [tick_tb, tick_tb]
  · intro init fuel
    have h := hcongr init fuel
    unfold main
    cases h1 : mainLoop d false fuel (mainInit init) <;>
      cases h2 : mainLoop d true fuel (mainInit init) <;>
      simp_all [report]

end UartTb
